import Mathlib

/-!
Formal model of the lead-generation API service.

The definitions below are a shallow embedding of the repository's Python
sources: the Lead schema and its field validators (app/models.py), the
lead-intake route with its exception-handling policy (app/main.py), the CRM
forwarding stub (app/services.py), the spreadsheet row append
(app/google_sheets.py), the request-id middleware and the JSON log formatter
(app/middleware.py), and the settings loader (app/config.py).

Python strings are modeled as Lean `String` (ASCII scope is enough for every
statement proved here); Python-level machine behaviour that matters to the
statements — attribute lookup on a pydantic model, positional-call arity,
truthiness of `or` — is made explicit rather than assumed away.
-/

namespace LeadGen

/-- Python `a or b` where `a` is an optional string and the result is a string:
`None` and the empty string are falsy, so they fall through to `b`. -/
def pyOrStr (a : Option String) (b : String) : String :=
  match a with
  | some s => if s = "" then b else s
  | none => b

/-- Python `a or b` where both sides are optional strings. -/
def pyOrOpt (a b : Option String) : Option String :=
  match a with
  | some s => if s = "" then b else some s
  | none => b

/-- The phone pattern of models.py, a transliteration of the regular expression
in _PHONE_PATTERN, anchored at both ends: an optional leading plus sign, a
first digit in 1-9, then 7 to 14 further digits. -/
def phoneMatch (s : String) : Bool :=
  let cs := s.toList
  let cs := match cs with
            | '+' :: rest => rest
            | other => other
  match cs with
  | [] => false
  | c :: rest =>
      ('1' ≤ c && c ≤ '9') && rest.all Char.isDigit &&
        decide (7 ≤ rest.length) && decide (rest.length ≤ 14)

/-- validate_phone from models.py: reject with the documented message unless
the value matches _PHONE_PATTERN. -/
def validate_phone (value : String) : Except String String :=
  if phoneMatch value then .ok value
  else .error "phone must be in international format, e.g. +15551234567"

/-- The whitespace class of the postal regular expression: Python regex
whitespace over ASCII input. -/
def isPySpace (c : Char) : Bool :=
  c == ' ' || c == '\t' || c == '\n' || c == '\r' || c == Char.ofNat 11 || c == Char.ofNat 12

/-- One character of the postal pattern: A-Z, a-z, 0-9, dash, or whitespace. -/
def isPostalChar (c : Char) : Bool :=
  c.isAlpha || c.isDigit || c == '-' || isPySpace c

/-- The postal pattern of models.py (_POSTAL_PATTERN), anchored at both ends:
3 to 12 characters, each a letter, digit, dash, or whitespace. -/
def postalMatch (s : String) : Bool :=
  decide (3 ≤ s.length) && decide (s.length ≤ 12) && s.toList.all isPostalChar

/-- validate_postal from models.py. -/
def validate_postal (value : String) : Except String String :=
  if postalMatch value then .ok value
  else .error "postal must be 3-12 characters, alphanumeric, spaces, or dashes"

/-- Python str.upper over the ASCII range, used by normalize_state. -/
def pyUpper (s : String) : String :=
  ⟨s.data.map Char.toUpper⟩

/-- Python str.strip with no argument: remove leading and trailing
whitespace. -/
def pyTrim (s : String) : String :=
  ⟨((s.data.dropWhile isPySpace).reverse.dropWhile isPySpace).reverse⟩

/-- Split a character list at every occurrence of a separator character. -/
def splitOnChar (c : Char) : List Char → List (List Char)
  | [] => [[]]
  | x :: xs =>
      let rest := splitOnChar c xs
      if x == c then [] :: rest
      else
        match rest with
        | r :: rs => (x :: r) :: rs
        | [] => [[x]]

/-- Modelled from the spec: the email field "must be a syntactically valid
email address per standard email-address grammar". The actual check is done by
the external email-validator dependency behind pydantic's EmailStr, which is
not part of this repository's sources, so a simple syntactic approximation is
used: exactly one at-sign, a nonempty local part, and a dotted domain whose
labels are all nonempty. No claim depends on finer email behaviour. -/
def emailValid (s : String) : Bool :=
  match splitOnChar '@' s.data with
  | [lp, dom] =>
      !lp.isEmpty && !dom.isEmpty &&
        decide (2 ≤ (splitOnChar '.' dom).length) &&
        (splitOnChar '.' dom).all (fun seg => !seg.isEmpty)
  | _ => false

/-- A field-level validation error: the field location and a message, the shape
surfaced in the 422 details list. -/
structure FieldError where
  loc : String
  msg : String
deriving Repr, DecidableEq

/-- A required string field with pydantic length bounds: missing key is an
error; otherwise the value is trimmed (str_strip_whitespace) and its length
checked. Length-violation messages are summarized under one label since no
statement depends on their exact library wording. -/
def checkRequiredLen (field : String) (lo hi : Nat) (v : Option String) :
    Except FieldError String :=
  match v with
  | none => .error ⟨field, "Field required"⟩
  | some s =>
      let t := (pyTrim s)
      if decide (lo ≤ t.length) && decide (t.length ≤ hi) then .ok t
      else .error ⟨field, "string length out of range"⟩

/-- The phone field: required, trimmed, then passed to validate_phone. -/
def checkPhone (v : Option String) : Except FieldError String :=
  match v with
  | none => .error ⟨"phone", "Field required"⟩
  | some s =>
      match validate_phone (pyTrim s) with
      | .ok t => .ok t
      | .error m => .error ⟨"phone", m⟩

/-- The email field: required, trimmed, then checked against the email
grammar. -/
def checkEmail (v : Option String) : Except FieldError String :=
  match v with
  | none => .error ⟨"email", "Field required"⟩
  | some s =>
      let t := (pyTrim s)
      if emailValid t then .ok t
      else .error ⟨"email", "value is not a valid email address"⟩

/-- The address field: optional, trimmed, at most 255 characters, no minimum
length. -/
def checkAddress (v : Option String) : Except FieldError (Option String) :=
  match v with
  | none => .ok none
  | some s =>
      let t := (pyTrim s)
      if decide (t.length ≤ 255) then .ok (some t)
      else .error ⟨"address", "string length out of range"⟩

/-- The state field: required, 2 to 50 characters after trimming, then
normalized to upper case by normalize_state. -/
def checkState (v : Option String) : Except FieldError String :=
  (checkRequiredLen "state" 2 50 v).map pyUpper

/-- The postal field: required, trimmed, then passed to validate_postal. -/
def checkPostal (v : Option String) : Except FieldError String :=
  match v with
  | none => .error ⟨"postal", "Field required"⟩
  | some s =>
      match validate_postal (pyTrim s) with
      | .ok t => .ok t
      | .error m => .error ⟨"postal", m⟩

/-- The jornaya field: optional opaque string, only trimmed. -/
def checkJornaya (v : Option String) : Except FieldError (Option String) :=
  .ok (v.map pyTrim)

/-- The validated Lead record of models.py: exactly these eight fields. -/
structure Lead where
  first_name : String
  last_name : String
  phone : String
  email : String
  address : Option String
  state : String
  postal : String
  jornaya : Option String
deriving Repr, DecidableEq

/-- The declared field names of the Lead schema; with extra="forbid" these are
also exactly the attributes a Lead instance exposes. -/
def leadFieldNames : List String :=
  ["first_name", "last_name", "phone", "email", "address", "state", "postal", "jornaya"]

/-- Look a key up in a JSON-object payload, modeled as an association list. -/
def lookupField (p : List (String × String)) (k : String) : Option String :=
  (p.find? (fun kv => kv.1 == k)).map (fun kv => kv.2)

/-- extra="forbid": every payload key outside the schema yields an error. -/
def extraErrors (p : List (String × String)) : List FieldError :=
  (p.filter (fun kv => !(leadFieldNames.contains kv.1))).map
    (fun kv => ⟨kv.1, "Extra inputs are not permitted"⟩)

/-- The error contribution of one field check. -/
def errOf {α : Type} : Except FieldError α → List FieldError
  | .error e => [e]
  | .ok _ => []

/-- Value of a field check in the all-checks-passed case. -/
def okOr {α : Type} (e : Except FieldError α) (d : α) : α :=
  match e with
  | .ok a => a
  | .error _ => d

/-- All validation errors of a payload against the Lead schema, collected over
every field plus the unknown-key errors, as pydantic collects them. -/
def leadErrors (p : List (String × String)) : List FieldError :=
  errOf (checkRequiredLen "first_name" 1 100 (lookupField p "first_name")) ++
  errOf (checkRequiredLen "last_name" 1 100 (lookupField p "last_name")) ++
  errOf (checkPhone (lookupField p "phone")) ++
  errOf (checkEmail (lookupField p "email")) ++
  errOf (checkAddress (lookupField p "address")) ++
  errOf (checkState (lookupField p "state")) ++
  errOf (checkPostal (lookupField p "postal")) ++
  errOf (checkJornaya (lookupField p "jornaya")) ++
  extraErrors p

/-- The Lead built from a payload all of whose checks passed (the defaults are
never reached on that path). -/
def buildLead (p : List (String × String)) : Lead where
  first_name := okOr (checkRequiredLen "first_name" 1 100 (lookupField p "first_name")) ""
  last_name := okOr (checkRequiredLen "last_name" 1 100 (lookupField p "last_name")) ""
  phone := okOr (checkPhone (lookupField p "phone")) ""
  email := okOr (checkEmail (lookupField p "email")) ""
  address := okOr (checkAddress (lookupField p "address")) none
  state := okOr (checkState (lookupField p "state")) ""
  postal := okOr (checkPostal (lookupField p "postal")) ""
  jornaya := okOr (checkJornaya (lookupField p "jornaya")) none

/-- Atomic (all-or-nothing) construction of a Lead from a request payload:
succeed exactly when no field error and no unknown key was found. -/
def leadOfPayload (p : List (String × String)) : Except (List FieldError) Lead :=
  match leadErrors p with
  | [] => .ok (buildLead p)
  | errs => .error errs

/-- Whether an Except value is a success. -/
def exIsOk {ε α : Type} : Except ε α → Bool
  | .ok _ => true
  | .error _ => false

/-- Get a request or response header, as dict.get on the header mapping. -/
def headerGet (hs : List (String × String)) (k : String) : Option String :=
  (hs.find? (fun kv => kv.1 == k)).map (fun kv => kv.2)

/-- Python-level exceptions that the lead-intake flow can raise or wrap. -/
inductive PyExn where
  | attributeError (attr : String)
  | typeError (msg : String)
  | httpException (status : Nat) (detail : String)
  | crmError
deriving Repr, DecidableEq

/-- The attribute access lead.source_url performed by create_lead (main.py).
A pydantic model with extra="forbid" exposes exactly its declared fields as
attributes, and source_url is not among the Lead fields, so the access raises
AttributeError. The ok branch carries the value the attribute would have had
were it defined. -/
def lead_source_url (_l : Lead) : Except PyExn String :=
  if leadFieldNames.contains "source_url" then .ok ""
  else .error (.attributeError "source_url")

/-- The source_hint expression of create_lead: the lead's source_url when that
attribute is truthy, else the X-Source-Url, Referer, Origin header chain under
Python or-truthiness. Evaluating the condition already reads the attribute. -/
def computeSourceHint (l : Lead) (reqHeaders : List (String × String)) :
    Except PyExn (Option String) :=
  match lead_source_url l with
  | .error e => .error e
  | .ok u =>
      .ok (if u = "" then
             pyOrOpt (headerGet reqHeaders "X-Source-Url")
               (pyOrOpt (headerGet reqHeaders "Referer") (headerGet reqHeaders "Origin"))
           else some u)

/-- forward_to_crm (services.py) sleeps 50 ms, logs, and returns; it raises
nothing itself, but the route's contract treats it as fallible, so a
hypothetical failure of this step is modeled by the crmRaises parameter. -/
def forward_to_crm (crmRaises : Bool) : Except PyExn Unit :=
  if crmRaises then .error .crmError else .ok ()

/-- The spreadsheet row built by _append_row_to_sheet (google_sheets.py), in
column order; absent optional fields are written as the empty string via
Python or-truthiness on the dumped dict. -/
def rowOf (timestamp : String) (d : Lead) : List String :=
  [timestamp, d.first_name, d.last_name, d.phone, d.email,
   pyOrStr d.address "", d.state, d.postal, pyOrStr d.jornaya ""]

/-- append_lead_to_sheet (google_sheets.py): a no-op returning no row when the
integration is disabled, else the appended row. The Python definition has the
single parameter lead; enabled and the timestamp are ambient state (settings
and the clock), and the external append itself is modeled as succeeding. -/
def append_lead_to_sheet (lead : Lead) (enabled : Bool) (ts : String) :
    Option (List String) :=
  if enabled then some (rowOf ts lead) else none

/-- Number of positional parameters of the Python definition of
append_lead_to_sheet in google_sheets.py: exactly one, lead. -/
def appendLeadToSheetParamCount : Nat := 1

/-- Number of positional arguments passed at the call site inside create_lead
(main.py): append_lead_to_sheet(lead, source_hint). -/
def createLeadAppendCallArgCount : Nat := 2

/-- Python call semantics for the spreadsheet append: a call whose positional
argument count differs from the definition's parameter count raises TypeError
before the function body runs. -/
def callAppendLeadToSheet (argCount : Nat) (lead : Lead) (enabled : Bool) (ts : String) :
    Except PyExn (Option (List String)) :=
  if argCount == appendLeadToSheetParamCount then .ok (append_lead_to_sheet lead enabled ts)
  else .error (.typeError "append_lead_to_sheet takes 1 positional argument but 2 were given")

/-- The except clauses of create_lead: an HTTPException is re-raised as is, any
other exception becomes HTTPException(502, "Failed to process lead"). -/
def httpWrap : PyExn → PyExn
  | .httpException s d => .httpException s d
  | _ => .httpException 502 "Failed to process lead"

/-- The try block of create_lead: forward to the CRM, then call the
spreadsheet append (with the call site's two arguments), wrapping failures per
the except clauses. The two booleans record whether the CRM call and the
spreadsheet append call were reached. -/
def leadTryBlock (lead : Lead) (crmRaises enabled : Bool) (ts : String) :
    Except PyExn Unit × Bool × Bool :=
  match forward_to_crm crmRaises with
  | .error e => (.error (httpWrap e), true, false)
  | .ok _ =>
      match callAppendLeadToSheet createLeadAppendCallArgCount lead enabled ts with
      | .error e => (.error (httpWrap e), true, true)
      | .ok _ => (.ok (), true, true)

/-- The body of create_lead (main.py) on an already-validated lead: compute
source_hint (which reads lead.source_url, outside the try block), then run the
try block. Returns the outcome together with the CRM-called and
sheet-call-reached flags. -/
def create_lead (lead : Lead) (reqHeaders : List (String × String))
    (crmRaises enabled : Bool) (ts : String) : Except PyExn Lead × Bool × Bool :=
  match computeSourceHint lead reqHeaders with
  | .error e => (.error e, false, false)
  | .ok _sourceHint =>
      match leadTryBlock lead crmRaises enabled ts with
      | (.ok _, c, s) => (.ok lead, c, s)
      | (.error e, c, s) => (.error e, c, s)

/-- A response body: the LeadResponse success envelope (status "success") or
the ErrorResponse envelope (status "error") of models.py. -/
inductive RespBody where
  | success (message : String) (data : Lead)
  | err (message : String) (details : Option (List FieldError))
deriving Repr, DecidableEq

/-- The observable outcome of one POST /lead request: HTTP status, body, and
whether the CRM call and the spreadsheet append call were reached. -/
structure RouteResult where
  status : Nat
  body : RespBody
  crmCalled : Bool
  sheetCalled : Bool
deriving Repr, DecidableEq

/-- The 422 message: the first validation error's message, as in
validation_exception_handler (main.py). -/
def firstErrMsg (errs : List FieldError) : String :=
  match errs with
  | e :: _ => e.msg
  | [] => "Validation error"

/-- POST /lead end to end at the application layer (main.py): body validation
against the Lead schema, then create_lead, with the route's declared 201
success envelope and the registered exception handlers shaping failures —
RequestValidationError to 422, HTTPException to its own status, anything else
to a sanitized 500. -/
def leadRoute (payload : List (String × String)) (reqHeaders : List (String × String))
    (crmRaises enabled : Bool) (ts : String) : RouteResult :=
  match leadOfPayload payload with
  | .error errs =>
      { status := 422, body := .err (firstErrMsg errs) (some errs)
      , crmCalled := false, sheetCalled := false }
  | .ok lead =>
      match create_lead lead reqHeaders crmRaises enabled ts with
      | (.ok l, c, s) =>
          { status := 201, body := .success "Lead accepted" l, crmCalled := c, sheetCalled := s }
      | (.error (.httpException st d), c, s) =>
          { status := st, body := .err d none, crmCalled := c, sheetCalled := s }
      | (.error _, c, s) =>
          { status := 500, body := .err "Server error" none, crmCalled := c, sheetCalled := s }

/-- An HTTP request as seen by the middleware: its headers. -/
structure Request where
  headers : List (String × String)
deriving Repr, DecidableEq

/-- An HTTP response as seen by the middleware: status and headers. -/
structure Response where
  status : Nat
  headers : List (String × String)
deriving Repr, DecidableEq

/-- Assign a response header, replacing any existing value for the key; the
header mapping is modeled up to headerGet observation. -/
def headerSet (hs : List (String × String)) (k v : String) : List (String × String) :=
  (k, v) :: hs.filter (fun kv => !(kv.1 == k))

/-- headers.setdefault: add the header only when the key is absent. -/
def headerSetDefault (hs : List (String × String)) (k v : String) :
    List (String × String) :=
  if (headerGet hs k).isSome then hs else hs ++ [(k, v)]

/-- RequestIdMiddleware.dispatch (middleware.py): take the inbound
X-Request-ID header if truthy, else a freshly generated UUID (the genUuid
parameter); store it in request state and the context variable, call the
inner application, and assign the X-Request-ID response header on a normal
response. When the inner call raises, the finally clause only resets the
context variable and the exception propagates — no header is assigned.
Returns the outcome together with the request-state id; after dispatch the
context variable reads as its default "-" either way. -/
def requestIdDispatch (genUuid : String) (inner : Request → Except PyExn Response)
    (req : Request) : Except PyExn Response × String :=
  let rid := pyOrStr (headerGet req.headers "X-Request-ID") genUuid
  match inner req with
  | .ok resp => (.ok { resp with headers := headerSet resp.headers "X-Request-ID" rid }, rid)
  | .error e => (.error e, rid)

/-- append_request_id_header (main.py): after the inner call, read the id from
request state with a context-variable fallback under or-truthiness, and if
truthy set the X-Request-ID header only when absent. -/
def append_request_id_header (stateRid : Option String) (ctxVal : String)
    (resp : Response) : Response :=
  if pyOrStr stateRid ctxVal = "" then resp
  else
    { resp with
      headers := headerSetDefault resp.headers "X-Request-ID" (pyOrStr stateRid ctxVal) }

/-- The response general_exception_handler (main.py) builds for an unhandled
exception: the sanitized catch-all 500. Only the status and headers are
modeled; the handler sets no X-Request-ID header of its own. -/
def serverErrorResponse : Response :=
  { status := 500, headers := [] }

/-- The composed middleware stack. The inner application holds the router,
the rate limiter and the exception handlers installed in Starlette's
ExceptionMiddleware, so its normal responses range over success,
validation-error (422), rate-limited (429) and controlled HTTP error (502)
responses, while an unhandled exception escapes as an error. Around it, inside
out: RequestIdMiddleware, then append_request_id_header (added last, so
outermost of the user middleware), then Starlette's ServerErrorMiddleware,
which is always the outermost layer and owns the handler registered for
Exception. On the normal path the outer header middleware runs with the
request-state id still set and the context variable already reset to "-"; on
the exception path both header middlewares are bypassed — RequestIdMiddleware
re-raises out of its finally clause and append_request_id_header's call_next
raises before its header logic — and general_exception_handler builds the 500
response in ServerErrorMiddleware. -/
def handleRequest (genUuid : String) (inner : Request → Except PyExn Response)
    (req : Request) : Response :=
  match requestIdDispatch genUuid inner req with
  | (.ok resp, rid) => append_request_id_header (some rid) "-" resp
  | (.error _, _) => serverErrorResponse

/-- A logging record as the formatter sees it: the created flag stands for the
record's nonzero creation time, and the optional attributes are absent when
the corresponding record data is missing. -/
structure LogRecord where
  created : Bool
  levelname : String
  name : String
  message : String
  request_id : Option String
  exc_info : Option String
  stack_info : Option String
deriving Repr, DecidableEq

/-- RequestIdFilter (middleware.py): stamp every record with the current
context-variable value (default "-") before formatting. -/
def requestIdFilter (ctxVal : String) (r : LogRecord) : LogRecord :=
  { r with request_id := some ctxVal }

/-- The key-value pairs JsonFormatter.format assembles before serialization:
fixed keys with possibly-absent values, plus exception and stack text when
present. -/
def jsonFields (formattedTime : String) (r : LogRecord) :
    List (String × Option String) :=
  [("timestamp", if r.created then some formattedTime else none),
   ("level", some r.levelname),
   ("logger", some r.name),
   ("message", some r.message),
   ("request_id", r.request_id)] ++
  (match r.exc_info with
   | some e => [("exc_info", some e)]
   | none => []) ++
  (match r.stack_info with
   | some s => [("stack_info", some s)]
   | none => [])

/-- The rendered JSON object of JsonFormatter.format, as its key-value list:
exactly the assembled pairs whose value is not None. -/
def jsonFormat (formattedTime : String) (r : LogRecord) : List (String × String) :=
  (jsonFields formattedTime r).filterMap (fun kv => kv.2.map (fun v => (kv.1, v)))

/-- The Settings record of config.py after validation. -/
structure Settings where
  environment : String
  cors_allowed_origins : Option String
  rate_limit_per_minute : Int
  log_level : String
  google_service_account_json : Option String
  google_sheet_id : Option String
  google_sheet_worksheet : Option String
deriving Repr, DecidableEq

/-- validate_rate_limit (config.py): reject any value that is not strictly
positive. -/
def validate_rate_limit (value : Int) : Except String Int :=
  if value ≤ 0 then .error "rate_limit_per_minute must be greater than zero"
  else .ok value

/-- Construction of Settings from its raw inputs: the rate limit is the only
validated field, the rest pass through. -/
def settingsOfEnv (environment : String) (cors : Option String)
    (rateLimit : Int) (logLevel : String) (saJson sheetId worksheet : Option String) :
    Except String Settings :=
  match validate_rate_limit rateLimit with
  | .error m => .error m
  | .ok v => .ok ⟨environment, cors, v, logLevel, saJson, sheetId, worksheet⟩

/-- get_settings (config.py) under lru_cache, with the cache made explicit:
a hit returns the cached instance unchanged; a miss constructs Settings and
caches a success. The construct parameter is the outcome Settings() would
have on this process environment. -/
def get_settings (construct : Except String Settings) (cache : Option Settings) :
    Except String Settings × Option Settings :=
  match cache with
  | some s => (.ok s, some s)
  | none =>
      match construct with
      | .ok s => (.ok s, some s)
      | .error m => (.error m, none)

/-- The fully valid example payload from the module docstring of main.py. -/
def janePayload : List (String × String) :=
  [("first_name", "Jane"), ("last_name", "Doe"), ("phone", "+15551234567"),
   ("email", "jane@example.com"), ("state", "CA"), ("postal", "90210")]

/-- The Lead that validating janePayload produces. -/
def janeLead : Lead :=
  ⟨"Jane", "Doe", "+15551234567", "jane@example.com", none, "CA", "90210", none⟩

/-- The example payload with a lower-case state value. -/
def caPayload : List (String × String) :=
  [("first_name", "Jane"), ("last_name", "Doe"), ("phone", "+15551234567"),
   ("email", "jane@example.com"), ("state", "ca"), ("postal", "90210")]

/-- Settings with every field at its config.py default. -/
def defaultSettings : Settings :=
  ⟨"development", none, 60, "INFO", none, none, none⟩

/-- Inverting a successful Lead construction: no error was collected and the
result is the built record. -/
theorem leadOfPayload_ok {p : List (String × String)} {l : Lead}
    (h : leadOfPayload p = .ok l) : leadErrors p = [] ∧ l = buildLead p := by
  unfold leadOfPayload at h
  cases he : leadErrors p with
  | nil =>
      rw [he] at h
      exact ⟨rfl, (Except.ok.inj h).symm⟩
  | cons e es =>
      rw [he] at h
      exact Except.noConfusion h

/-- A field check contributing no error succeeded. -/
theorem errOf_eq_nil {α : Type} {e : Except FieldError α} (h : errOf e = []) :
    ∃ a, e = .ok a := by
  cases e with
  | ok a => exact ⟨a, rfl⟩
  | error f => simp [errOf] at h

/-- An error-free payload passed every field check and has no unknown key. -/
theorem leadErrors_parts {p : List (String × String)} (h : leadErrors p = []) :
    errOf (checkRequiredLen "first_name" 1 100 (lookupField p "first_name")) = [] ∧
    errOf (checkRequiredLen "last_name" 1 100 (lookupField p "last_name")) = [] ∧
    errOf (checkPhone (lookupField p "phone")) = [] ∧
    errOf (checkEmail (lookupField p "email")) = [] ∧
    errOf (checkAddress (lookupField p "address")) = [] ∧
    errOf (checkState (lookupField p "state")) = [] ∧
    errOf (checkPostal (lookupField p "postal")) = [] ∧
    errOf (checkJornaya (lookupField p "jornaya")) = [] ∧
    extraErrors p = [] := by
  unfold leadErrors at h
  simp only [List.append_eq_nil] at h
  tauto

/-- Inverting a successful phone check: the key was present and the stored
value is the trimmed input, which matches the phone pattern. -/
theorem checkPhone_ok {v : Option String} {t : String} (h : checkPhone v = .ok t) :
    ∃ s, v = some s ∧ t = (pyTrim s) ∧ phoneMatch (pyTrim s) = true := by
  cases v with
  | none => exact Except.noConfusion h
  | some s =>
      refine ⟨s, rfl, ?_⟩
      unfold checkPhone validate_phone at h
      cases hm : phoneMatch (pyTrim s) with
      | false => simp [hm] at h
      | true =>
          simp [hm] at h
          exact ⟨h.symm, rfl⟩

/-- Inverting a successful required-length check: the key was present and the
stored value is the trimmed input. -/
theorem checkRequiredLen_ok {f : String} {lo hi : Nat} {v : Option String} {t : String}
    (h : checkRequiredLen f lo hi v = .ok t) : ∃ s, v = some s ∧ t = (pyTrim s) := by
  cases v with
  | none => exact Except.noConfusion h
  | some s =>
      refine ⟨s, rfl, ?_⟩
      unfold checkRequiredLen at h
      cases hc : (decide (lo ≤ (pyTrim s).length) && decide ((pyTrim s).length ≤ hi)) with
      | false => simp [hc] at h
      | true =>
          simp [hc] at h
          exact h.symm

/-- Inverting a successful state check: the stored value is the upper-cased
trimmed input. -/
theorem checkState_ok {v : Option String} {t : String} (h : checkState v = .ok t) :
    ∃ s, v = some s ∧ t = pyUpper (pyTrim s) := by
  unfold checkState at h
  cases hc : checkRequiredLen "state" 2 50 v with
  | error e => rw [hc] at h; exact Except.noConfusion h
  | ok u =>
      rw [hc] at h
      obtain ⟨s, hs, hu⟩ := checkRequiredLen_ok hc
      exact ⟨s, hs, by rw [← Except.ok.inj h, hu]⟩

/-- Inverting a successful address check on a present key: the stored value is
the trimmed input. -/
theorem checkAddress_ok_some {a : String} {o : Option String}
    (h : checkAddress (some a) = .ok o) : o = some (pyTrim a) := by
  unfold checkAddress at h
  cases hc : decide ((pyTrim a).length ≤ 255) with
  | false => simp [hc] at h
  | true =>
      simp [hc] at h
      exact h.symm

/-- C4: the phone validator accepts exactly the strings matching the
transliterated pattern of _PHONE_PATTERN, rejects with the documented message
otherwise, behaves as claimed on the four sample inputs, and inside the schema
it runs on the trimmed input, so every accepted lead stores a trimmed string
matching the pattern. -/
theorem phone_validator_spec :
    (∀ v : String, validate_phone v = .ok v ↔ phoneMatch v = true) ∧
    (∀ v : String, phoneMatch v = false →
      validate_phone v = .error "phone must be in international format, e.g. +15551234567") ∧
    phoneMatch "+15551234567" = true ∧ phoneMatch "15551234567" = true ∧
    phoneMatch "123" = false ∧ phoneMatch "+0123456789" = false ∧
    (∀ (p : List (String × String)) (l : Lead), leadOfPayload p = .ok l →
      phoneMatch l.phone = true ∧
      ∀ v : String, lookupField p "phone" = some v → l.phone = (pyTrim v)) := by
  refine ⟨?_, ?_, by decide, by decide, by decide, by decide, ?_⟩
  · intro v
    unfold validate_phone
    cases hm : phoneMatch v with
    | false => simp [hm]
    | true => simp [hm]
  · intro v hm
    unfold validate_phone
    simp [hm]
  · intro p l h
    obtain ⟨he, hl⟩ := leadOfPayload_ok h
    obtain ⟨-, -, hph, -⟩ := leadErrors_parts he
    obtain ⟨t, ht⟩ := errOf_eq_nil hph
    obtain ⟨s, hs, hts, hmt⟩ := checkPhone_ok ht
    have hlp : l.phone = t := by rw [hl, buildLead, ht]; rfl
    constructor
    · rw [hlp, hts]; exact hmt
    · intro v hv
      rw [hs] at hv
      rw [hlp, hts, Option.some.inj hv]

/-- C4 witness: the theorem instantiated at the sample inputs. -/
theorem phone_validator_spec_witness :
    validate_phone "+15551234567" = .ok "+15551234567" ∧
    validate_phone "123" =
      .error "phone must be in international format, e.g. +15551234567" := by
  refine ⟨phone_validator_spec.1 "+15551234567" |>.mpr (by decide), ?_⟩
  exact phone_validator_spec.2.1 "123" (by decide)

/-- C5: the postal validator accepts exactly the strings matching the
transliterated pattern of _POSTAL_PATTERN; the three sample codes are
accepted, every 1-character and every 13-or-more-character value is rejected,
and every accepted payload stores its state field upper-cased (after the
ingestion trim), in particular lower-case ca becomes CA. -/
theorem postal_state_spec :
    (∀ v : String, validate_postal v = .ok v ↔ postalMatch v = true) ∧
    postalMatch "90210" = true ∧ postalMatch "SW1A 1AA" = true ∧
    postalMatch "A1B-2C3" = true ∧
    (∀ v : String, v.length = 1 → postalMatch v = false) ∧
    (∀ v : String, 13 ≤ v.length → postalMatch v = false) ∧
    (∀ (p : List (String × String)) (l : Lead) (v : String),
      leadOfPayload p = .ok l → lookupField p "state" = some v →
      l.state = pyUpper (pyTrim v)) ∧
    pyUpper "ca" = "CA" := by
  refine ⟨?_, by decide, by decide, by decide, ?_, ?_, ?_, by decide⟩
  · intro v
    unfold validate_postal
    cases hm : postalMatch v with
    | false => simp [hm]
    | true => simp [hm]
  · intro v hv
    unfold postalMatch
    rw [hv]
    rfl
  · intro v hv
    unfold postalMatch
    have h12 : decide (v.length ≤ 12) = false := by simp; omega
    rw [h12, Bool.and_false, Bool.false_and]
  · intro p l v h hv
    obtain ⟨he, hl⟩ := leadOfPayload_ok h
    obtain ⟨-, -, -, -, -, hst, -⟩ := leadErrors_parts he
    obtain ⟨t, ht⟩ := errOf_eq_nil hst
    obtain ⟨s, hs, hts⟩ := checkState_ok ht
    have hls : l.state = t := by rw [hl, buildLead, ht]; rfl
    have hsv : s = v := Option.some.inj (hs.symm.trans hv)
    rw [hls, hts, hsv]

/-- C5 witness: the theorem instantiated at the sample inputs, in particular
the payload submitting state ca stores CA. -/
theorem postal_state_spec_witness :
    validate_postal "SW1A 1AA" = .ok "SW1A 1AA" ∧
    postalMatch "A" = false ∧ postalMatch "ABCDEFGHIJKLM" = false ∧
    janeLead.state = "CA" := by
  refine ⟨postal_state_spec.1 "SW1A 1AA" |>.mpr (by decide),
    postal_state_spec.2.2.2.2.1 "A" (by decide),
    postal_state_spec.2.2.2.2.2.1 "ABCDEFGHIJKLM" (by decide),
    postal_state_spec.2.2.2.2.2.2.1 caPayload janeLead "ca" (by rfl) (by rfl)⟩

/-- C6: any payload containing a key outside the Lead schema fails validation,
whatever the rest of the payload holds (extra="forbid", closed schema). -/
theorem lead_unknown_field_rejected :
    ∀ (p : List (String × String)) (k v : String),
      (k, v) ∈ p → leadFieldNames.contains k = false →
      exIsOk (leadOfPayload p) = false := by
  intro p k v hkv hk
  have hknm : k ∉ leadFieldNames := by simpa using hk
  have hmem : (k, v) ∈ p.filter (fun kv => !(leadFieldNames.contains kv.1)) :=
    List.mem_filter.mpr ⟨hkv, by simp [hknm]⟩
  have hne : extraErrors p ≠ [] := by
    unfold extraErrors
    intro hc
    rw [List.map_eq_nil_iff] at hc
    rw [hc] at hmem
    exact List.not_mem_nil _ hmem
  have hle : leadErrors p ≠ [] := by
    unfold leadErrors
    intro hc
    simp only [List.append_eq_nil] at hc
    exact hne hc.2
  unfold leadOfPayload
  cases he : leadErrors p with
  | nil => exact absurd he hle
  | cons e es => rfl

/-- C6 witness: an otherwise fully valid payload with one unknown key is
rejected. -/
theorem lead_unknown_field_rejected_witness :
    exIsOk (leadOfPayload (janePayload ++ [("source_url", "x")])) = false :=
  lead_unknown_field_rejected (janePayload ++ [("source_url", "x")]) "source_url" "x"
    (by decide) (by decide)

/-- C3: the claim says append_lead_to_sheet accepts two arguments (lead and
source_hint); in google_sheets.py its definition has exactly one parameter,
so the two-argument call that create_lead makes raises TypeError before the
append body ever runs — the caller and the definition disagree. -/
theorem append_sheet_arity_mismatch :
    appendLeadToSheetParamCount = 1 ∧ createLeadAppendCallArgCount = 2 ∧
    callAppendLeadToSheet createLeadAppendCallArgCount janeLead true "2024-01-01T00:00:00+0000" =
      .error (.typeError "append_lead_to_sheet takes 1 positional argument but 2 were given") :=
  ⟨rfl, rfl, rfl⟩

/-- C1: the claim says a valid payload yields 201 with the success envelope;
instead, for every payload that validates, create_lead evaluates
lead.source_url — an attribute the Lead model does not define — so the
handler raises AttributeError before reaching any downstream call and the
catch-all handler returns 500 Server error. -/
theorem lead_route_valid_payload_returns_500 :
    ∀ (payload reqHeaders : List (String × String)) (lead : Lead)
      (crmRaises enabled : Bool) (ts : String),
      leadOfPayload payload = .ok lead →
      leadRoute payload reqHeaders crmRaises enabled ts =
        ⟨500, .err "Server error" none, false, false⟩ := by
  intro payload reqHeaders lead crmRaises enabled ts h
  unfold leadRoute
  rw [h]
  rfl

/-- C1 witness: the docstring example payload of main.py validates and the
route answers 500, with neither downstream call reached. -/
theorem lead_route_valid_payload_returns_500_witness :
    leadRoute janePayload [] false true "2024-01-01T00:00:00+0000" =
      ⟨500, .err "Server error" none, false, false⟩ :=
  lead_route_valid_payload_returns_500 janePayload [] janeLead false true
    "2024-01-01T00:00:00+0000" (by rfl)

/-- The fail-fast contract the try block of create_lead implements on its own:
a CRM failure is wrapped into the 502 HTTPException and the spreadsheet call
is not reached. The route never actually gets this far, because the
source_hint computation raises first. -/
theorem leadTryBlock_crm_failure (lead : Lead) (enabled : Bool) (ts : String) :
    leadTryBlock lead true enabled ts =
      (.error (.httpException 502 "Failed to process lead"), true, false) := rfl

/-- C2: the claim says a CRM failure yields 502 with the spreadsheet append
never attempted; in the code as written the handler raises AttributeError on
lead.source_url before the try block, so when the CRM call would raise, the
response is 500 Server error and the CRM call itself is never even attempted
(crmCalled = false), let alone the spreadsheet append. -/
theorem lead_route_crm_failure_gives_500 :
    ∀ (payload reqHeaders : List (String × String)) (lead : Lead)
      (enabled : Bool) (ts : String),
      leadOfPayload payload = .ok lead →
      leadRoute payload reqHeaders true enabled ts =
        ⟨500, .err "Server error" none, false, false⟩ := by
  intro payload reqHeaders lead enabled ts h
  unfold leadRoute
  rw [h]
  rfl

/-- C2 witness: the docstring example payload with a failing CRM step still
answers 500, not 502, and no downstream call is reached. -/
theorem lead_route_crm_failure_gives_500_witness :
    leadRoute janePayload [] true true "2024-01-01T00:00:00+0000" =
      ⟨500, .err "Server error" none, false, false⟩ :=
  lead_route_crm_failure_gives_500 janePayload [] janeLead true
    "2024-01-01T00:00:00+0000" (by rfl)

/-- C9: constructing Settings with a zero or negative rate limit fails with
the documented configuration error, and a second get_settings call against
the cache filled by the first returns the identical instance. -/
theorem settings_rate_limit_and_cache :
    (∀ (environment : String) (cors : Option String) (rl : Int) (logLevel : String)
       (sa si wk : Option String), rl ≤ 0 →
       settingsOfEnv environment cors rl logLevel sa si wk =
         .error "rate_limit_per_minute must be greater than zero") ∧
    (∀ (construct : Except String Settings) (s : Settings) (cache : Option Settings),
       get_settings construct none = (.ok s, cache) →
       get_settings construct cache = (.ok s, cache)) := by
  constructor
  · intro env cors rl lg sa si wk h
    unfold settingsOfEnv validate_rate_limit
    rw [if_pos h]
  · intro construct s cache h
    cases construct with
    | ok s0 =>
        simp only [get_settings] at h
        injection h with h1 h2
        injection h1 with h1
        subst h1
        subst h2
        rfl
    | error m =>
        simp only [get_settings] at h
        injection h with h1 h2
        exact Except.noConfusion h1

/-- C9 witness: the theorem instantiated at rate limit 0 and at the default
Settings instance. -/
theorem settings_rate_limit_and_cache_witness :
    settingsOfEnv "development" none 0 "INFO" none none none =
      .error "rate_limit_per_minute must be greater than zero" ∧
    get_settings (.ok defaultSettings) (some defaultSettings) =
      (.ok defaultSettings, some defaultSettings) :=
  ⟨settings_rate_limit_and_cache.1 "development" none 0 "INFO" none none none (by decide),
   settings_rate_limit_and_cache.2 (.ok defaultSettings) defaultSettings
     (some defaultSettings) (by rfl)⟩

/-- Assigning a header makes it the value headerGet reads back. -/
theorem headerGet_headerSet_self (hs : List (String × String)) (k v : String) :
    headerGet (headerSet hs k v) k = some v := by
  simp [headerGet, headerSet]

/-- setdefault on a key that is already present leaves the headers unchanged. -/
theorem headerGet_headerSetDefault_present {hs : List (String × String)} {k : String}
    (h : (headerGet hs k).isSome = true) (v : String) :
    headerSetDefault hs k v = hs := by
  unfold headerSetDefault
  rw [if_pos h]

/-- C7: the claim — backed by the append_request_id_header docstring and the
spec's final-response-shaping guarantee — says every response carries an
X-Request-ID header. Responses the inner application produces normally
(success, 422, 429, 502) do come back through RequestIdMiddleware and carry
the header, equal to a truthy inbound value or else the fresh UUID (first
conjunct). But when the handler raises an unhandled exception — which, per the
source_url defect, every valid POST /lead does — the 500 response is built in
outermost ServerErrorMiddleware, bypassing both header middlewares, and
carries no X-Request-ID header at all (second conjunct): the code fails the
guarantee its own docstring states. -/
theorem request_id_missing_on_server_error :
    (∀ (genUuid : String) (inner : Request → Except PyExn Response) (req : Request)
       (resp : Response), inner req = .ok resp →
      headerGet (handleRequest genUuid inner req).headers "X-Request-ID" =
        some (pyOrStr (headerGet req.headers "X-Request-ID") genUuid)) ∧
    (∀ (genUuid : String) (req : Request) (e : PyExn),
      handleRequest genUuid (fun _ => .error e) req = serverErrorResponse ∧
      headerGet (handleRequest genUuid (fun _ => .error e) req).headers
        "X-Request-ID" = none) := by
  constructor
  · intro g inner req resp h
    have h1 : handleRequest g inner req =
        append_request_id_header
          (some (pyOrStr (headerGet req.headers "X-Request-ID") g)) "-"
          { resp with
            headers := headerSet resp.headers "X-Request-ID"
              (pyOrStr (headerGet req.headers "X-Request-ID") g) } := by
      unfold handleRequest requestIdDispatch
      rw [h]
    rw [h1]
    generalize pyOrStr (headerGet req.headers "X-Request-ID") g = rid
    have hno : pyOrStr (some rid) "-" ≠ "" := by
      show (if rid = "" then "-" else rid) ≠ ""
      by_cases hr : rid = ""
      · rw [if_pos hr]; decide
      · rw [if_neg hr]; exact hr
    unfold append_request_id_header
    rw [if_neg hno]
    show headerGet
        (headerSetDefault (headerSet resp.headers "X-Request-ID" rid)
          "X-Request-ID" (pyOrStr (some rid) "-")) "X-Request-ID" = some rid
    rw [headerGet_headerSetDefault_present (by rw [headerGet_headerSet_self]; rfl)]
    exact headerGet_headerSet_self _ _ _
  · intro g req e
    exact ⟨rfl, rfl⟩

/-- C7 witness: a normal response with an inbound id is stamped with that id,
while the same request whose handling raises (as the source_url AttributeError
makes every valid lead submission do) yields the bare catch-all 500 without
the header. -/
theorem request_id_missing_on_server_error_witness :
    headerGet (handleRequest "uuid-1" (fun _ => .ok (Response.mk 200 []))
        (Request.mk [("X-Request-ID", "abc-123")])).headers "X-Request-ID" =
      some "abc-123" ∧
    headerGet (handleRequest "uuid-1" (fun _ => .error (.attributeError "source_url"))
        (Request.mk [("X-Request-ID", "abc-123")])).headers "X-Request-ID" = none :=
  ⟨request_id_missing_on_server_error.1 "uuid-1" (fun _ => .ok (Response.mk 200 []))
      (Request.mk [("X-Request-ID", "abc-123")]) (Response.mk 200 []) rfl,
   (request_id_missing_on_server_error.2 "uuid-1"
      (Request.mk [("X-Request-ID", "abc-123")]) (.attributeError "source_url")).2⟩

/-- A further deviation on the normal path, recorded for completeness: an
inbound X-Request-ID header supplied with an empty value is not echoed back —
Python or-truthiness in RequestIdMiddleware treats it as absent and the fresh
UUID is used instead. -/
theorem request_id_empty_inbound_not_echoed :
    headerGet (Request.mk [("X-Request-ID", "")]).headers "X-Request-ID" = some "" ∧
    headerGet (handleRequest "uuid-1" (fun _ => .ok (Response.mk 200 []))
        (Request.mk [("X-Request-ID", "")])).headers "X-Request-ID" = some "uuid-1" ∧
    ("uuid-1" : String) ≠ "" :=
  ⟨rfl, rfl, by decide⟩

/-- C8 amended: the filter stamps every record with the context value, so the
rendered JSON always contains the request_id key — including the unset
sentinel value observed as a literal dash — while keys whose value is absent
(None, or a zero creation time for the timestamp) are omitted entirely. -/
theorem log_json_key_omission :
    (∀ (t ctx : String) (r : LogRecord),
      ("request_id", ctx) ∈ jsonFormat t (requestIdFilter ctx r)) ∧
    (∀ (t : String) (r : LogRecord), r.request_id = none →
      "request_id" ∉ (jsonFormat t r).map Prod.fst) ∧
    (∀ (t : String) (r : LogRecord), r.exc_info = none →
      "exc_info" ∉ (jsonFormat t r).map Prod.fst) ∧
    (∀ (t : String) (r : LogRecord), r.stack_info = none →
      "stack_info" ∉ (jsonFormat t r).map Prod.fst) ∧
    (∀ (t : String) (r : LogRecord), r.created = false →
      "timestamp" ∉ (jsonFormat t r).map Prod.fst) := by
  refine ⟨?_, ?_, ?_, ?_, ?_⟩
  · intro t ctx r
    obtain ⟨cr, lv, nm, ms, ri, ex, st⟩ := r
    cases cr <;> cases ex <;> cases st <;>
      simp [jsonFormat, jsonFields, requestIdFilter]
  · intro t r h
    obtain ⟨cr, lv, nm, ms, ri, ex, st⟩ := r
    obtain rfl : ri = none := h
    cases cr <;> cases ex <;> cases st <;>
      simp [jsonFormat, jsonFields]
  · intro t r h
    obtain ⟨cr, lv, nm, ms, ri, ex, st⟩ := r
    obtain rfl : ex = none := h
    cases cr <;> cases ri <;> cases st <;>
      simp [jsonFormat, jsonFields]
  · intro t r h
    obtain ⟨cr, lv, nm, ms, ri, ex, st⟩ := r
    obtain rfl : st = none := h
    cases cr <;> cases ri <;> cases ex <;>
      simp [jsonFormat, jsonFields]
  · intro t r h
    obtain ⟨cr, lv, nm, ms, ri, ex, st⟩ := r
    obtain rfl : cr = false := h
    cases ri <;> cases ex <;> cases st <;>
      simp [jsonFormat, jsonFields]

/-- C8 witness: the omission half of the theorem at a concrete record whose
request_id attribute is absent. -/
theorem log_json_key_omission_witness :
    "request_id" ∉
      (jsonFormat "T" (LogRecord.mk true "INFO" "app" "boot" none none none)).map
        Prod.fst :=
  log_json_key_omission.2.1 "T" (LogRecord.mk true "INFO" "app" "boot" none none none) rfl

/-- C8 counterexample: a record formatted while the context variable holds the
unset sentinel renders a request_id key with the literal dash value — the key
is not omitted. -/
theorem log_unset_request_id_still_rendered :
    jsonFormat "2024-01-01T00:00:00+0000"
        (requestIdFilter "-" (LogRecord.mk true "INFO" "app" "boot" none none none)) =
      [("timestamp", "2024-01-01T00:00:00+0000"), ("level", "INFO"), ("logger", "app"),
       ("message", "boot"), ("request_id", "-")] ∧
    ("request_id", "-") ∈ jsonFormat "2024-01-01T00:00:00+0000"
        (requestIdFilter "-" (LogRecord.mk true "INFO" "app" "boot" none none none)) :=
  ⟨rfl, by decide⟩

/-- C10: an address that trims to the empty string passes the address check
with stored value some empty string; every accepted payload whose address
input trims to empty stores exactly that; the docstring payload extended with
a blank address validates; and the spreadsheet row of such a lead carries the
empty string in the address column — identical to the row of the same lead
with the address absent. -/
theorem address_blank_accepted_row_empty :
    (∀ a : String, pyTrim a = "" → checkAddress (some a) = .ok (some "")) ∧
    (∀ (p : List (String × String)) (l : Lead) (a : String),
      leadOfPayload p = .ok l → lookupField p "address" = some a → pyTrim a = "" →
      l.address = some "") ∧
    leadOfPayload (janePayload ++ [("address", "   ")]) =
      .ok { janeLead with address := some "" } ∧
    (∀ (t : String) (l : Lead), l.address = some "" →
      rowOf t l = rowOf t { l with address := none } ∧
      (rowOf t l).get? 5 = some "") := by
  refine ⟨?_, ?_, by rfl, ?_⟩
  · intro a ha
    have hu : checkAddress (some a) =
        (if decide ((pyTrim a).length ≤ 255) = true then Except.ok (some (pyTrim a))
         else Except.error ⟨"address", "string length out of range"⟩) := rfl
    rw [hu, ha]
    rfl
  · intro p l a h hv ha
    obtain ⟨he, hl⟩ := leadOfPayload_ok h
    obtain ⟨-, -, -, -, had, -⟩ := leadErrors_parts he
    obtain ⟨o, ho⟩ := errOf_eq_nil had
    rw [hv] at ho
    have hoa : o = some (pyTrim a) := checkAddress_ok_some ho
    rw [hl]
    show okOr (checkAddress (lookupField p "address")) none = some ""
    rw [hv, ho, hoa, ha]
    rfl
  · intro t l h
    obtain ⟨fn, ln, ph, em, ad, st, po, jo⟩ := l
    obtain rfl : ad = some "" := h
    exact ⟨rfl, rfl⟩

/-- C10 witness: the theorem instantiated at a whitespace address and at the
docstring lead with the blank address stored. -/
theorem address_blank_accepted_row_empty_witness :
    checkAddress (some "   ") = .ok (some "") ∧
    (rowOf "T" { janeLead with address := some "" }).get? 5 = some "" :=
  ⟨address_blank_accepted_row_empty.1 "   " (by rfl),
   (address_blank_accepted_row_empty.2.2.2 "T"
     { janeLead with address := some "" } rfl).2⟩

end LeadGen
